import Mathlib

/-!
Verification of the expo-wireguard iOS VPN module.

The development shallowly embeds the configuration parsing and validation
logic of `src/ios/WireGuardNetworkExtension/PacketTunnelProvider.swift` and
the VPN session lifecycle of the Expo module (`src/unnamed/part_001`, the
converged module variant, and the `OnCreate` block of
`src/ios/src/ExpoWireguardModule.swift`).  Swift strings are modelled as
`List Char`; the Swift standard-library operations used by the source
(`trimmingCharacters`, `components(separatedBy:)`, `starts(with:)`,
`replacingOccurrences`, `Int.init?(String)`) are re-implemented below as
structurally recursive Lean functions.
-/

namespace WG

/-- Membership of a character in Swift's `CharacterSet.whitespacesAndNewlines`
restricted to the ASCII characters that can occur here. -/
def isWs (c : Char) : Bool :=
  c == ' ' || c == '\t' || c == '\n' || c == '\r'

/-- Swift `trimmingCharacters(in: .whitespacesAndNewlines)`. -/
def trim (cs : List Char) : List Char :=
  ((cs.dropWhile isWs).reverse.dropWhile isWs).reverse

/-- Helper for `splitBy`: accumulates the current segment (reversed). -/
def splitByAux (p : Char → Bool) : List Char → List Char → List (List Char)
  | [], acc => [acc.reverse]
  | c :: cs, acc =>
    if p c then acc.reverse :: splitByAux p cs []
    else splitByAux p cs (c :: acc)

/-- Swift `components(separatedBy:)` for a one-character (or character-class)
separator: splits at every separator character, keeping empty segments. -/
def splitBy (p : Char → Bool) (s : List Char) : List (List Char) :=
  splitByAux p s []

/-- Swift `starts(with:)`: the second list is an initial segment of the first. -/
def startsWith : List Char → List Char → Bool
  | _, [] => true
  | [], _ :: _ => false
  | c :: cs, d :: ds => c == d && startsWith cs ds

/-- Helper for `removeAll`, with fuel bounded by the length of the string. -/
def removeAllAux (pat : List Char) : Nat → List Char → List Char
  | _, [] => []
  | 0, s => s
  | Nat.succ fuel, c :: cs =>
    if !pat.isEmpty && startsWith (c :: cs) pat then
      removeAllAux pat fuel (List.drop (pat.length - 1) cs)
    else
      c :: removeAllAux pat fuel cs

/-- Swift `replacingOccurrences(of: pat, with: "")`: removes every
(non-overlapping, left-to-right) occurrence of `pat`. -/
def removeAll (pat s : List Char) : List Char :=
  removeAllAux pat s.length s

/-- Decimal digits accumulated into a number; fails on a non-digit. -/
def digitsToNat : List Char → Nat → Option Nat
  | [], acc => some acc
  | c :: cs, acc =>
    if c.isDigit then digitsToNat cs (acc * 10 + (c.toNat - 48)) else none

/-- Swift `Int.init?(String)` (radix 10): an optional sign followed by at
least one decimal digit, nothing else. -/
def parseInt : List Char → Option Int
  | [] => none
  | c :: cs =>
    if c == '-' then
      if cs.isEmpty then none else (digitsToNat cs 0).map (fun n => -(n : Int))
    else if c == '+' then
      if cs.isEmpty then none else (digitsToNat cs 0).map (fun n => (n : Int))
    else
      (digitsToNat (c :: cs) 0).map (fun n => (n : Int))

/-- The decimal digit character for `n % 10`. -/
def digitChar (n : Nat) : Char := Char.ofNat (48 + n % 10)

/-- Helper for `natToDec`, with fuel. -/
def natToDecAux : Nat → Nat → List Char → List Char
  | 0, _, acc => acc
  | Nat.succ fuel, n, acc =>
    if n < 10 then digitChar n :: acc
    else natToDecAux fuel (n / 10) (digitChar (n % 10) :: acc)

/-- Decimal rendering of a natural number (Swift string interpolation of a
`UInt8` value). -/
def natToDec (n : Nat) : List Char := natToDecAux (n + 1) n []

/-- `PacketTunnelProvider.cidrToSubnetMask` (PacketTunnelProvider.swift,
lines 365-372): `UInt32.max << (32 - prefixLength)` rendered as a dotted
quad.  A Swift left shift of an `UInt32` by 32 yields 0; the `% 2 ^ 32`
keeps the model inside 32 bits exactly as the Swift fixed-width type does. -/
def cidrToSubnetMask (plen : Int) : List Char :=
  let mask : Nat := (0xFFFFFFFF <<< (32 - plen).toNat) % 2 ^ 32
  let a := (mask >>> 24) &&& 255
  let b := (mask >>> 16) &&& 255
  let c := (mask >>> 8) &&& 255
  let d := mask &&& 255
  natToDec a ++ '.' :: natToDec b ++ '.' :: natToDec c ++ '.' :: natToDec d

/-- `PacketTunnelProvider.parseIPv4Address` (PacketTunnelProvider.swift,
lines 329-341): the token must split on `/` into exactly two parts, the
second an integer in `0..32`; the result pairs the first part with the
dotted-quad subnet mask. -/
def parseIPv4Address (s : List Char) : Option (List Char × List Char) :=
  match splitBy (fun c => c == '/') s with
  | [ip, p] =>
    match parseInt p with
    | some plen =>
      if 0 ≤ plen ∧ plen ≤ 32 then some (ip, cidrToSubnetMask plen) else none
    | none => none
  | _ => none

/-- `PacketTunnelProvider.parseIPv6Address` (PacketTunnelProvider.swift,
lines 344-362). -/
def parseIPv6Address (s : List Char) : Option (List Char × Int) :=
  match splitBy (fun c => c == '/') s with
  | [ip, p] =>
    match parseInt p with
    | some plen =>
      if 0 ≤ plen ∧ plen ≤ 128 then
        if ip.contains ':' then some (ip, plen) else none
      else none
    | none => none
  | _ => none

/-- A character at which Swift `components(separatedBy: .newlines)` splits. -/
def isNewlineChar (c : Char) : Bool := c == '\n' || c == '\r'

/-- `config.components(separatedBy: .newlines)`. -/
def splitLines (s : List Char) : List (List Char) := splitBy isNewlineChar s

/-- The line list of a configuration text. -/
def configLines (cfg : String) : List (List Char) := splitLines cfg.data

/-- The scanning state of `PacketTunnelProvider.validateConfiguration`: the
six `has…` flags and the two section flags (PacketTunnelProvider.swift,
lines 379-388). -/
structure VFlags where
  hasInterface : Bool
  hasPrivateKey : Bool
  hasAddress : Bool
  hasPeer : Bool
  hasPublicKey : Bool
  hasEndpoint : Bool
  inInterfaceSection : Bool
  inPeerSection : Bool
deriving DecidableEq

/-- The initial scanning state: all flags false. -/
def initVFlags : VFlags := ⟨false, false, false, false, false, false, false, false⟩

/-- The line loop of `validateConfiguration` (PacketTunnelProvider.swift,
lines 390-429).  `none` models the early `return false` taken when a
trimmed `Peer`-section line starts with the lowercase `publickey = `. -/
def vScan : VFlags → List (List Char) → Option VFlags
  | st, [] => some st
  | st, l :: ls =>
    if trim l = "[Interface]".data then
      vScan {st with hasInterface := true, inInterfaceSection := true, inPeerSection := false} ls
    else if trim l = "[Peer]".data then
      vScan {st with hasPeer := true, inInterfaceSection := false, inPeerSection := true} ls
    else if startsWith (trim l) "[".data then
      vScan {st with inInterfaceSection := false, inPeerSection := false} ls
    else if st.inInterfaceSection then
      if startsWith (trim l) "PrivateKey = ".data then vScan {st with hasPrivateKey := true} ls
      else if startsWith (trim l) "Address = ".data then vScan {st with hasAddress := true} ls
      else vScan st ls
    else if st.inPeerSection then
      if startsWith (trim l) "PublicKey = ".data then vScan {st with hasPublicKey := true} ls
      else if startsWith (trim l) "Endpoint = ".data then vScan {st with hasEndpoint := true} ls
      else if startsWith (trim l) "publickey = ".data then none
      else vScan st ls
    else vScan st ls

/-- Conjunction of the six required flags (PacketTunnelProvider.swift,
line 431). -/
def requiredFlags (st : VFlags) : Bool :=
  st.hasInterface && st.hasPrivateKey && st.hasAddress &&
  st.hasPeer && st.hasPublicKey && st.hasEndpoint

/-- `PacketTunnelProvider.validateConfiguration` (PacketTunnelProvider.swift,
lines 376-446): false on the early lowercase-`publickey` rejection,
otherwise the conjunction of the six flags. -/
def validateConfiguration (cfg : String) : Bool :=
  match vScan initVFlags (configLines cfg) with
  | none => false
  | some st => requiredFlags st

/-- The same line scan as `vScan` but without the lowercase-`publickey`
rejection; it merely records which required directives occur in which
sections.  This is the directive-presence condition stated by the spec
("at least one peer with a publicKey and endpoint; at least one address;
privateKey present", over `[Interface]`/`[Peer]` sections). -/
def sScan : VFlags → List (List Char) → VFlags
  | st, [] => st
  | st, l :: ls =>
    if trim l = "[Interface]".data then
      sScan {st with hasInterface := true, inInterfaceSection := true, inPeerSection := false} ls
    else if trim l = "[Peer]".data then
      sScan {st with hasPeer := true, inInterfaceSection := false, inPeerSection := true} ls
    else if startsWith (trim l) "[".data then
      sScan {st with inInterfaceSection := false, inPeerSection := false} ls
    else if st.inInterfaceSection then
      if startsWith (trim l) "PrivateKey = ".data then sScan {st with hasPrivateKey := true} ls
      else if startsWith (trim l) "Address = ".data then sScan {st with hasAddress := true} ls
      else sScan st ls
    else if st.inPeerSection then
      if startsWith (trim l) "PublicKey = ".data then sScan {st with hasPublicKey := true} ls
      else if startsWith (trim l) "Endpoint = ".data then sScan {st with hasEndpoint := true} ls
      else sScan st ls
    else sScan st ls

/-- Follows the spec's words: the text contains an `[Interface]` section with
a `PrivateKey` and an `Address` directive and a `[Peer]` section with a
`PublicKey` and an `Endpoint` directive. -/
def specRequiredDirectives (cfg : String) : Bool :=
  requiredFlags (sScan initVFlags (configLines cfg))

/-- Whether the scan of `validateConfiguration` encounters, in a `Peer`
section, a trimmed line that starts with the lowercase `publickey = ` (in
the position where the source checks it, i.e. a line that is not a
canonical `PublicKey = ` or `Endpoint = ` line — a line starting with
`publickey = ` can never start with either canonical key, so the two extra
tests do not change the predicate).  The two boolean arguments are the
current section flags. -/
def lpScan : Bool → Bool → List (List Char) → Bool
  | _, _, [] => false
  | inIface, inPeer, l :: ls =>
    if trim l = "[Interface]".data then lpScan true false ls
    else if trim l = "[Peer]".data then lpScan false true ls
    else if startsWith (trim l) "[".data then lpScan false false ls
    else if inIface then lpScan inIface inPeer ls
    else if inPeer then
      if startsWith (trim l) "PublicKey = ".data then lpScan inIface inPeer ls
      else if startsWith (trim l) "Endpoint = ".data then lpScan inIface inPeer ls
      else if startsWith (trim l) "publickey = ".data then true
      else lpScan inIface inPeer ls
    else lpScan inIface inPeer ls

/-- Whether the configuration contains a lowercase `publickey = ` line in a
`Peer` section (at the point the validator scans it). -/
def hasLowercasePublickey (cfg : String) : Bool :=
  lpScan false false (configLines cfg)

/-- The collection state of
`PacketTunnelProvider.createTunnelNetworkSettings`
(PacketTunnelProvider.swift, lines 230-291): the parsed IPv4
address/subnet-mask pairs, IPv6 address/length pairs, DNS servers, and the
`inInterfaceSection` flag. -/
structure NetCollect where
  ipv4 : List (List Char × List Char)
  ipv6 : List (List Char × Int)
  dns : List (List Char)
  inInterfaceSection : Bool
deriving DecidableEq

/-- The initial collection state. -/
def initNetCollect : NetCollect := ⟨[], [], [], false⟩

/-- The comma-separated tokens of an `Address = `/`DNS = ` line value:
`replacingOccurrences` of the key, split on `,`, each token trimmed
(PacketTunnelProvider.swift, lines 258-261 and 283-286).  The source trims
the tokens with `.whitespaces`; since a line produced by the newline split
can contain no newline characters, trimming with `trim`
(`.whitespacesAndNewlines`) is equal on every reachable input. -/
def commaTokens (key t : List Char) : List (List Char) :=
  (splitBy (fun c => c == ',') (removeAll key t)).map trim

/-- One iteration of the line loop of `createTunnelNetworkSettings`
(PacketTunnelProvider.swift, lines 244-291).  An address token containing
`:` goes down the IPv6 path, otherwise the IPv4 path; a token whose parse
fails is skipped. -/
def netStep (st : NetCollect) (l : List Char) : NetCollect :=
  if trim l = "[Interface]".data then
    {st with inInterfaceSection := true}
  else if startsWith (trim l) "[".data then
    {st with inInterfaceSection := false}
  else if st.inInterfaceSection then
    if startsWith (trim l) "Address = ".data then
      {st with
        ipv4 := st.ipv4 ++ (commaTokens "Address = ".data (trim l)).filterMap
          (fun tok => if tok.contains ':' then none else parseIPv4Address tok),
        ipv6 := st.ipv6 ++ (commaTokens "Address = ".data (trim l)).filterMap
          (fun tok => if tok.contains ':' then parseIPv6Address tok else none)}
    else if startsWith (trim l) "DNS = ".data then
      {st with dns := st.dns ++ commaTokens "DNS = ".data (trim l)}
    else st
  else st

/-- The address/DNS data collected by
`PacketTunnelProvider.createTunnelNetworkSettings` from a configuration
text.  The function is total: it never reports an error. -/
def createTunnelNetworkSettings (cfg : String) : NetCollect :=
  (configLines cfg).foldl netStep initNetCollect

/-- The tunnel remote address chosen by `createTunnelNetworkSettings`
(PacketTunnelProvider.swift, line 294): the first parsed IPv4 address, or
the loopback address when there is none. -/
def tunnelRemoteAddress (cfg : String) : List Char :=
  (((createTunnelNetworkSettings cfg).ipv4.map Prod.fst).head?).getD "127.0.0.1".data

/-- The error cases of `PacketTunnelProviderError`
(PacketTunnelProvider.swift, lines 8-29). -/
inductive PacketTunnelProviderError
  | savedProtocolConfigurationIsInvalid
  | couldNotDetermineFileDescriptor
  | couldNotSetNetworkSettings
  | couldNotStartBackend
  | dnsResolutionFailure
deriving DecidableEq

/-- The externally observable calls of the tunnel start path: applying the
network settings, and `wgTurnOn` with a file descriptor. -/
inductive TOp
  | setNetworkSettings
  | wgTurnOn (fd : Int)
deriving DecidableEq

/-- The platform/engine responses consumed by
`startWireGuardTunnel`/`startWireGuardEngine`. -/
structure TunnelEnv where
  setSettingsFails : Bool
  fd : Int
  fdValid : Bool
  wgResult : Int
deriving DecidableEq

/-- `PacketTunnelProvider.startWireGuardTunnel` together with
`startWireGuardEngine` (PacketTunnelProvider.swift, lines 76-188), as the
completed execution of the callback chain: the completion value (an error
or success) paired with the list of platform/engine calls issued.  An
invalid configuration completes with
`savedProtocolConfigurationIsInvalid` before any other call. -/
def startWireGuardTunnel (cfg : String) (env : TunnelEnv) :
    Option PacketTunnelProviderError × List TOp :=
  if validateConfiguration cfg = false then
    (some .savedProtocolConfigurationIsInvalid, [])
  else if env.setSettingsFails then
    (some .couldNotSetNetworkSettings, [TOp.setNetworkSettings])
  else if env.fd > 0 then
    if env.fdValid = false then
      (some .couldNotDetermineFileDescriptor, [TOp.setNetworkSettings])
    else if env.wgResult < 0 then
      (some .couldNotStartBackend, [TOp.setNetworkSettings, TOp.wgTurnOn env.fd])
    else
      (none, [TOp.setNetworkSettings, TOp.wgTurnOn env.fd])
  else if env.wgResult < 0 then
    (some .couldNotStartBackend, [TOp.setNetworkSettings, TOp.wgTurnOn (-1)])
  else
    (none, [TOp.setNetworkSettings, TOp.wgTurnOn (-1)])

/-- `PacketTunnelProvider.stopTunnel` (PacketTunnelProvider.swift, lines
191-209) acting on the `tunnelHandle` field: the new handle value paired
with the handles passed to `wgTurnOff`.  When the handle is negative
(no active tunnel) nothing is released; otherwise `wgTurnOff` receives the
handle once and the handle is reset to `-1`. -/
def stopTunnel (tunnelHandle : Int) : Int × List Int :=
  if 0 ≤ tunnelHandle then (-1, [tunnelHandle]) else (tunnelHandle, [])

/-- `NEVPNStatus` (the platform connection status). -/
inductive VPNStatus
  | invalid
  | disconnected
  | connecting
  | connected
  | reasserting
  | disconnecting
deriving DecidableEq

/-- A persisted tunnel profile (`NETunnelProviderManager`): the
`providerBundleIdentifier` of its protocol configuration (`none` when the
configuration is not a `NETunnelProviderProtocol`), its
`localizedDescription`, the persisted `config` payload, and its
connection status. -/
structure Manager where
  bundleId : Option String
  name : String
  payload : Option String
  status : VPNStatus
deriving DecidableEq

/-- The module's instance fields (`src/unnamed/part_001`, lines 13-17). -/
structure ModState where
  tunnelProvider : Option Manager
  isConnected : Bool
  sessionName : Option String
  observerSet : Bool
deriving DecidableEq

/-- The module state at construction: no provider, not connected, no
session name, no observer. -/
def initModState : ModState := ⟨none, false, none, false⟩

/-- Which exception message an `EV_TYPE_EXCEPTION` event carries. -/
inductive ExcTag
  | loadAllFailed
  | saveFailed
  | loadFailed
  | startFailed
deriving DecidableEq

/-- The events the module sends to JavaScript. -/
inductive Ev
  | started
  | stopped
  | startedBySystem
  | exception (tag : ExcTag)
deriving DecidableEq

/-- The platform calls the module issues. -/
inductive POp
  | loadAll
  | save (m : Manager)
  | loadPrefs
  | startTunnel (m : Manager)
  | stopTunnel (m : Manager)
deriving DecidableEq

/-- The platform responses consumed during a `Connect` call: whether each
asynchronous platform callback reports an error, whether
`startVPNTunnel()` throws, and the connection status the manager reports
after the reload. -/
structure PlatformEnv where
  loadAllFails : Bool
  saveFails : Bool
  loadPrefsFails : Bool
  startThrows : Bool
  statusAtConnect : VPNStatus
deriving DecidableEq

/-- The outcome of a module call: the new module state, the platform
profile store after the call, the events sent, and the platform calls
issued, in order. -/
structure ConnRes where
  state : ModState
  store : List Manager
  events : List Ev
  ops : List POp
deriving DecidableEq

/-- The provider bundle identifier the module looks for:
`Bundle.main.bundleIdentifier + ".WireGuardNetworkExtension"`
(`src/unnamed/part_001`, lines 60 and 156). -/
def extensionId (appId : String) : String := appId ++ ".WireGuardNetworkExtension"

/-- Whether a persisted profile belongs to this app's extension identity
(`src/unnamed/part_001`, lines 68-69). -/
def ownsProfile (extId : String) (m : Manager) : Bool := m.bundleId == some extId

/-- `connectToVPN` (`src/unnamed/part_001`, lines 362-432), as the
completed execution of its callback chain.  After a reload failure an
exception is reported; a manager already reported `connected` is adopted
with a `Started` event; a `connecting` manager is adopted silently;
otherwise `startVPNTunnel()` is requested and NO event is sent on its
successful synchronous return (the `Started` event is left to the status
observer). -/
def connectToVPN (env : PlatformEnv) (st : ModState) (store : List Manager)
    (m : Manager) : ConnRes :=
  if env.loadPrefsFails then
    ⟨st, store, [Ev.exception .loadFailed], [POp.loadPrefs]⟩
  else if env.statusAtConnect = .connected then
    ⟨{st with tunnelProvider := some m, isConnected := true}, store,
      [Ev.started], [POp.loadPrefs]⟩
  else if env.statusAtConnect = .connecting then
    ⟨{st with tunnelProvider := some m}, store, [], [POp.loadPrefs]⟩
  else if env.startThrows then
    ⟨st, store, [Ev.exception .startFailed], [POp.loadPrefs, POp.startTunnel m]⟩
  else
    ⟨{st with tunnelProvider := some m, observerSet := true}, store, [],
      [POp.loadPrefs, POp.startTunnel m]⟩

/-- In-place update of the first profile owned by this app: new display
name and new `config` payload, every other field and profile unchanged
(`src/unnamed/part_001`, lines 263-284, persisted by `saveToPreferences`). -/
def updateFirstOwn (extId session cfg : String) : List Manager → List Manager
  | [] => []
  | m :: ms =>
    if ownsProfile extId m then {m with name := session, payload := some cfg} :: ms
    else m :: updateFirstOwn extId session cfg ms

/-- `updateAndConnectVPN` (`src/unnamed/part_001`, lines 263-301): mutate
the found profile, persist it, then connect.  A failed save reports an
exception and leaves the persisted store unchanged. -/
def updateAndConnectVPN (env : PlatformEnv) (st : ModState) (store : List Manager)
    (extId cfg session : String) (m : Manager) : ConnRes :=
  if env.saveFails then
    ⟨st, store, [Ev.exception .saveFailed],
      [POp.save {m with name := session, payload := some cfg}]⟩
  else
    let r := connectToVPN env st (updateFirstOwn extId session cfg store)
      {m with name := session, payload := some cfg}
    ⟨r.state, r.store, r.events,
      POp.save {m with name := session, payload := some cfg} :: r.ops⟩

/-- `createAndConnectVPN` (`src/unnamed/part_001`, lines 304-359): build a
fresh profile carrying this app's extension identity, persist it, then
connect.  A failed save reports an exception and persists nothing. -/
def createAndConnectVPN (env : PlatformEnv) (st : ModState) (store : List Manager)
    (extId cfg session : String) : ConnRes :=
  if env.saveFails then
    ⟨st, store, [Ev.exception .saveFailed],
      [POp.save ⟨some extId, session, some cfg, env.statusAtConnect⟩]⟩
  else
    let r := connectToVPN env st (store ++ [⟨some extId, session, some cfg, env.statusAtConnect⟩])
      ⟨some extId, session, some cfg, env.statusAtConnect⟩
    ⟨r.state, r.store, r.events,
      POp.save ⟨some extId, session, some cfg, env.statusAtConnect⟩ :: r.ops⟩

/-- `AsyncFunction("Connect")` (`src/unnamed/part_001`, lines 42-87): store
the session name, list the persisted profiles, and either update the
first profile owned by this app's extension identity or create a new one,
then connect.  Note that the configuration text is never parsed or
validated here: it is persisted as an opaque payload. -/
def Connect (env : PlatformEnv) (appId : String) (st : ModState)
    (store : List Manager) (cfg session : String) : ConnRes :=
  if env.loadAllFails then
    ⟨{st with sessionName := some session}, store, [Ev.exception .loadAllFailed],
      [POp.loadAll]⟩
  else
    match store.find? (ownsProfile (extensionId appId)) with
    | some m =>
      let r := updateAndConnectVPN env {st with sessionName := some session} store
        (extensionId appId) cfg session m
      ⟨r.state, r.store, r.events, POp.loadAll :: r.ops⟩
    | none =>
      let r := createAndConnectVPN env {st with sessionName := some session} store
        (extensionId appId) cfg session
      ⟨r.state, r.store, r.events, POp.loadAll :: r.ops⟩

/-- The `for` loop of the no-stored-provider path of `Disconnect`
(`src/unnamed/part_001`, lines 158-173): stop every profile of this app's
identity that is `connected` or `connecting`, remembering it as the
provider. -/
def disconnectLoop (extId : String) (st : ModState) :
    List Manager → ModState × List POp
  | [] => (st, [])
  | m :: ms =>
    if ownsProfile extId m && (m.status == VPNStatus.connected || m.status == VPNStatus.connecting) then
      ((disconnectLoop extId {st with tunnelProvider := some m} ms).1,
        POp.stopTunnel m :: (disconnectLoop extId {st with tunnelProvider := some m} ms).2)
    else disconnectLoop extId st ms

/-- The outcome of a `Disconnect` call or a status notification: new state,
events sent, platform calls issued.  The persisted store is not changed
by these paths. -/
structure ModRes where
  state : ModState
  events : List Ev
  ops : List POp
deriving DecidableEq

/-- `AsyncFunction("Disconnect")` (`src/unnamed/part_001`, lines 138-175):
with a stored provider, request `stopVPNTunnel()` on it (the provider
reference is NOT cleared and no event is sent); with none, list profiles
and stop any own connected/connecting one.  No path reports an
exception (a listing error is only logged). -/
def Disconnect (env : PlatformEnv) (appId : String) (st : ModState)
    (store : List Manager) : ModRes :=
  match st.tunnelProvider with
  | some m => ⟨st, [], [POp.stopTunnel m]⟩
  | none =>
    if env.loadAllFails then ⟨st, [], [POp.loadAll]⟩
    else
      ⟨(disconnectLoop (extensionId appId) st store).1, [],
        POp.loadAll :: (disconnectLoop (extensionId appId) st store).2⟩

/-- The `NEVPNStatusDidChange` observer installed by
`setupTunnelObserver` (`src/unnamed/part_001`, lines 179-245; both the
`NETunnelProviderSession` and the `NEVPNConnection` arms behave
identically): `connected` sets the flag and sends `Started`;
`disconnected` and `invalid` clear the flag and send `Stopped`; the other
states change nothing. -/
def statusChanged (st : ModState) (status : VPNStatus) : ModState × List Ev :=
  match status with
  | .disconnected => ({st with isConnected := false}, [Ev.stopped])
  | .invalid => ({st with isConnected := false}, [Ev.stopped])
  | .connected => ({st with isConnected := true}, [Ev.started])
  | _ => (st, [])

/-- The profile check of `OnCreate`
(`src/ios/src/ExpoWireguardModule.swift`, lines 184-198): if the FIRST
profile of the platform list is reported `connected`, adopt it and send
the distinguished `startedBySystem` event; otherwise do nothing.  The
profile's identity is not checked. -/
def onCreateCheck (managers : List Manager) (st : ModState) : ModState × List Ev :=
  match managers.head? with
  | some m =>
    if m.status = VPNStatus.connected then
      ({st with tunnelProvider := some m, isConnected := true}, [Ev.startedBySystem])
    else (st, [])
  | none => (st, [])

/-- The `NEVPNStatusDidChange` observer registered by `OnCreate`
(`src/ios/src/ExpoWireguardModule.swift`, lines 157-182): `connected`
sends a NORMAL `Started` event; `disconnected` sends `Stopped`; every
other status does nothing. -/
def vpnStatusObserver (st : ModState) (status : VPNStatus) : ModState × List Ev :=
  match status with
  | .connected => ({st with isConnected := true}, [Ev.started])
  | .disconnected => ({st with isConnected := false}, [Ev.stopped])
  | _ => (st, [])

/-- Count of the profiles owned by this extension identity. -/
def countOwn (extId : String) (store : List Manager) : Nat :=
  (store.filter (ownsProfile extId)).length

set_option maxHeartbeats 2000000 in
/-- The validator scan equals the directive scan, guarded by the
lowercase-`publickey` rejection. -/
theorem vScan_eq (ls : List (List Char)) : ∀ st : VFlags,
    vScan st ls =
      if lpScan st.inInterfaceSection st.inPeerSection ls then none
      else some (sScan st ls) := by
  induction ls with
  | nil => intro st; rfl
  | cons l ls ih =>
    intro st
    simp only [vScan, sScan, lpScan]
    split_ifs <;> first | (rw [ih]; clear ih; simp_all) | simp_all

/-- Every IPv4 pair collected by the line loop comes from a successful
`parseIPv4Address` of some token (tokens whose parse fails are skipped). -/
theorem netFold_ipv4_from_parse (ls : List (List Char)) : ∀ st : NetCollect,
    ∀ p ∈ (ls.foldl netStep st).ipv4,
      p ∈ st.ipv4 ∨ ∃ tok, parseIPv4Address tok = some p := by
  induction ls with
  | nil => intro st p hp; exact Or.inl hp
  | cons l ls ih =>
    intro st p hp
    rcases ih (netStep st l) p hp with h | h
    · unfold netStep at h
      split_ifs at h <;>
        first
          | exact Or.inl h
          | (simp only [List.mem_append, List.mem_filterMap] at h
             rcases h with h | ⟨tok, _, htok⟩
             · exact Or.inl h
             · split_ifs at htok
               exact Or.inr ⟨tok, htok⟩)
    · exact Or.inr h


-- ---------- helper lemmas ----------

lemma connectToVPN_store (env : PlatformEnv) (st : ModState) (store : List Manager)
    (m : Manager) : (connectToVPN env st store m).store = store := by
  unfold connectToVPN; split_ifs <;> rfl

lemma ownsProfile_update (extId session cfg : String) (m : Manager) :
    ownsProfile extId {m with name := session, payload := some cfg} = ownsProfile extId m := rfl

lemma countOwn_updateFirstOwn (extId session cfg : String) :
    ∀ store : List Manager,
      countOwn extId (updateFirstOwn extId session cfg store) = countOwn extId store := by
  intro store
  induction store with
  | nil => rfl
  | cons m ms ih =>
    by_cases h : ownsProfile extId m
    · unfold updateFirstOwn countOwn
      rw [if_pos h]
      simp [List.filter_cons, ownsProfile_update, h]
    · unfold updateFirstOwn
      rw [if_neg h]
      unfold countOwn at ih ⊢
      simp [List.filter_cons, h, ih]

lemma find?_own_of_countOwn_pos (extId : String) :
    ∀ store : List Manager, 0 < countOwn extId store →
      ∃ m, store.find? (ownsProfile extId) = some m := by
  intro store
  induction store with
  | nil => intro h; simp [countOwn] at h
  | cons m ms ih =>
    intro h
    by_cases hm : ownsProfile extId m
    · exact ⟨m, by simp [List.find?, hm]⟩
    · have : 0 < countOwn extId ms := by
        simpa [countOwn, List.filter, hm] using h
      rcases ih this with ⟨m2, hm2⟩
      exact ⟨m2, by simp [List.find?, hm, hm2]⟩

lemma find?_updateFirstOwn (extId session cfg : String) :
    ∀ (store : List Manager) (m : Manager),
      store.find? (ownsProfile extId) = some m →
      (updateFirstOwn extId session cfg store).find? (ownsProfile extId) =
        some {m with name := session, payload := some cfg} := by
  intro store
  induction store with
  | nil => intro m h; simp at h
  | cons m0 ms ih =>
    intro m h
    by_cases hm : ownsProfile extId m0
    · simp [List.find?, hm] at h
      subst h
      simp [updateFirstOwn, hm, List.find?, ownsProfile_update, hm]
    · simp [List.find?, hm] at h
      simp [updateFirstOwn, hm, List.find?, ih m h]

lemma connect_store_eq (env : PlatformEnv) (appId : String) (st : ModState)
    (store : List Manager) (cfg session : String) (m : Manager)
    (h1 : env.loadAllFails = false) (h2 : env.saveFails = false)
    (hfind : store.find? (ownsProfile (extensionId appId)) = some m) :
    (Connect env appId st store cfg session).store =
      updateFirstOwn (extensionId appId) session cfg store := by
  simp [Connect, h1, hfind, updateAndConnectVPN, h2, connectToVPN_store]

lemma disconnectLoop_no_targets (extId : String) :
    ∀ (store : List Manager) (st : ModState),
      (∀ m ∈ store, ¬(ownsProfile extId m = true ∧
        (m.status = VPNStatus.connected ∨ m.status = VPNStatus.connecting))) →
      (disconnectLoop extId st store).2 = [] := by
  intro store
  induction store with
  | nil => intro st _; rfl
  | cons m ms ih =>
    intro st h
    have hm := h m (by simp)
    have hcond : (ownsProfile extId m &&
        (m.status == VPNStatus.connected || m.status == VPNStatus.connecting)) = false := by
      rcases hst : m.status <;> by_cases ho : ownsProfile extId m = true <;>
        simp_all
    unfold disconnectLoop
    rw [hcond]
    simp only [Bool.false_eq_true, if_false]
    exact ih st (fun x hx => h x (by simp [hx]))

-- ---------- C1 ----------

/-- Claim C1: for every Connect call (converged module variant,
`src/unnamed/part_001`), the session never transitions to the Connected
phase and no `started` event is emitted as a consequence of the
synchronous return of the tunnel start call alone: when the platform
callbacks succeed and the manager is not already reported connected or
connecting, `Connect` issues a `startVPNTunnel` request yet sends no
event and leaves `isConnected` unchanged; the Connected transition
(`isConnected := true` plus the `started` event) is produced only by the
status observer processing an asynchronous platform notification
reporting `connected`. -/
theorem claim_C1 :
    (∀ (env : PlatformEnv) (appId : String) (st : ModState)
        (store : List Manager) (cfg session : String),
      env.loadAllFails = false → env.saveFails = false →
      env.loadPrefsFails = false → env.startThrows = false →
      env.statusAtConnect ≠ VPNStatus.connected →
      env.statusAtConnect ≠ VPNStatus.connecting →
      (∃ m, POp.startTunnel m ∈ (Connect env appId st store cfg session).ops) ∧
      (Connect env appId st store cfg session).events = [] ∧
      (Connect env appId st store cfg session).state.isConnected = st.isConnected) ∧
    (∀ st : ModState,
      statusChanged st VPNStatus.connected =
        ({st with isConnected := true}, [Ev.started])) := by
  constructor
  · intro env appId st store cfg session h1 h2 h3 h4 h5 h6
    cases hfind : store.find? (ownsProfile (extensionId appId)) with
    | some m =>
      refine ⟨⟨{m with name := session, payload := some cfg}, ?_⟩, ?_, ?_⟩ <;>
        simp [Connect, hfind, updateAndConnectVPN, connectToVPN, h1, h2, h3, h4, h5, h6]
    | none =>
      refine ⟨⟨⟨some (extensionId appId), session, some cfg, env.statusAtConnect⟩, ?_⟩, ?_, ?_⟩ <;>
        simp [Connect, hfind, createAndConnectVPN, connectToVPN, h1, h2, h3, h4, h5, h6]
  · intro st; rfl

theorem claim_C1_witness :
    (∃ m, POp.startTunnel m ∈
      (Connect ⟨false, false, false, false, VPNStatus.disconnected⟩ "app"
        initModState [] "c" "S").ops) ∧
    (Connect ⟨false, false, false, false, VPNStatus.disconnected⟩ "app"
        initModState [] "c" "S").events = [] ∧
    (Connect ⟨false, false, false, false, VPNStatus.disconnected⟩ "app"
        initModState [] "c" "S").state.isConnected = initModState.isConnected :=
  claim_C1.1 ⟨false, false, false, false, VPNStatus.disconnected⟩ "app"
    initModState [] "c" "S" rfl rfl rfl rfl (by decide) (by decide)

-- ---------- C2 ----------

/-- Claim C2, amended: an unparseable/invalid configuration is rejected by
the packet tunnel provider's `startWireGuardTunnel` with
`savedProtocolConfigurationIsInvalid` before any network-settings or
engine call is issued; however the failure is NOT resolved before any
platform profile operation: the module's `Connect` persists a profile
(issues a `save` call carrying the unparseable configuration) without any
validation, so the profile store is changed even on a configuration
error.  The original claim (no profile is ever created or persisted from
an unparseable configuration) is refuted by
`claim_C2_counterexample`. -/
theorem claim_C2 :
    ∀ (cfg : String) (tenv : TunnelEnv) (env : PlatformEnv)
      (appId session : String) (st : ModState) (store : List Manager),
      validateConfiguration cfg = false →
      startWireGuardTunnel cfg tenv =
        (some PacketTunnelProviderError.savedProtocolConfigurationIsInvalid, []) ∧
      (env.loadAllFails = false →
        ∃ m, POp.save m ∈ (Connect env appId st store cfg session).ops) := by
  intro cfg tenv env appId session st store hv
  constructor
  · simp [startWireGuardTunnel, hv]
  · intro hl
    cases hfind : store.find? (ownsProfile (extensionId appId)) with
    | some m =>
      refine ⟨{m with name := session, payload := some cfg}, ?_⟩
      by_cases hs : env.saveFails <;>
        simp [Connect, hl, hfind, updateAndConnectVPN, hs]
    | none =>
      refine ⟨⟨some (extensionId appId), session, some cfg, env.statusAtConnect⟩, ?_⟩
      by_cases hs : env.saveFails <;>
        simp [Connect, hl, hfind, createAndConnectVPN, hs]

/-- Claim C2, counterexample to the claim as stated: the configuration
text `not a wireguard config` fails validation, yet a `Connect` call
with it issues a platform `save` that persists a profile carrying that
very text — a profile IS created from an unparseable configuration. -/
theorem claim_C2_counterexample :
    validateConfiguration "not a wireguard config" = false ∧
    POp.save ⟨some "app.WireGuardNetworkExtension", "S",
        some "not a wireguard config", VPNStatus.disconnected⟩ ∈
      (Connect ⟨false, false, false, false, VPNStatus.disconnected⟩ "app"
        initModState [] "not a wireguard config" "S").ops := by
  decide

theorem claim_C2_witness :
    startWireGuardTunnel "garbage" ⟨false, 5, true, 0⟩ =
      (some PacketTunnelProviderError.savedProtocolConfigurationIsInvalid, []) ∧
    ∃ m, POp.save m ∈
      (Connect ⟨false, false, false, false, VPNStatus.disconnected⟩ "app"
        initModState [] "garbage" "S").ops :=
  ⟨(claim_C2 "garbage" ⟨false, 5, true, 0⟩
      ⟨false, false, false, false, VPNStatus.disconnected⟩ "app" "S"
      initModState [] (by decide)).1,
   (claim_C2 "garbage" ⟨false, 5, true, 0⟩
      ⟨false, false, false, false, VPNStatus.disconnected⟩ "app" "S"
      initModState [] (by decide)).2 rfl⟩

-- ---------- C3 ----------

/-- Claim C3, amended: validation succeeds if and only if the text
contains an `[Interface]` section with a `PrivateKey` and an `Address`
directive and a `[Peer]` section with a `PublicKey` and an `Endpoint`
directive AND no trimmed `Peer`-section line spelled with the lowercase
`publickey = ` occurs; without the lowercase-rejection conjunct the
if-and-only-if fails (`claim_C3_counterexample`).  A failing
configuration yields `false` (reported as
`savedProtocolConfigurationIsInvalid`), never a crash: the validator is
a total function. -/
theorem claim_C3 :
    ∀ cfg : String,
      validateConfiguration cfg =
        (specRequiredDirectives cfg && !hasLowercasePublickey cfg) := by
  intro cfg
  unfold validateConfiguration specRequiredDirectives hasLowercasePublickey
  rw [vScan_eq]
  by_cases h : lpScan false false (configLines cfg) <;>
    simp [initVFlags, h]

/-- Claim C3, counterexample to the claim as stated: a configuration
containing all six required directives but additionally a lowercase
`publickey = ` line in the `[Peer]` section satisfies the claimed
directive-presence condition yet fails validation, so the claimed
equivalence does not hold. -/
theorem claim_C3_counterexample :
    specRequiredDirectives
      "[Interface]\nPrivateKey = k\nAddress = 10.0.0.2/24\n[Peer]\nPublicKey = p\nEndpoint = host:51820\npublickey = q" = true ∧
    validateConfiguration
      "[Interface]\nPrivateKey = k\nAddress = 10.0.0.2/24\n[Peer]\nPublicKey = p\nEndpoint = host:51820\npublickey = q" = false := by
  decide

-- ---------- C4 ----------

/-- Claim C4: an IPv4 CIDR token parses successfully exactly when it has
exactly two `/`-separated parts and an integer prefix length in `0..32`;
the prefix length maps to the dotted-quad subnet mask — in particular
`192.168.1.1/24` maps to `255.255.255.0` — and an out-of-range token
such as `10.0.0.1/33` fails parsing. -/
theorem claim_C4 :
    (∀ s : List Char,
      (parseIPv4Address s).isSome = true ↔
        ∃ a b n, splitBy (fun c => c == '/') s = [a, b] ∧
          parseInt b = some n ∧ 0 ≤ n ∧ n ≤ 32) ∧
    parseIPv4Address "192.168.1.1/24".data =
      some ("192.168.1.1".data, "255.255.255.0".data) ∧
    parseIPv4Address "10.0.0.1/33".data = none := by
  refine ⟨fun s => ?_, by decide, by decide⟩
  constructor
  · intro hs
    unfold parseIPv4Address at hs
    rcases h : splitBy (fun c => c == '/') s with _ | ⟨a, _ | ⟨b, _ | ⟨c, rest⟩⟩⟩ <;>
      rw [h] at hs <;> simp at hs
    rcases hp : parseInt b with _ | n <;> rw [hp] at hs
    · simp at hs
    · by_cases hn : 0 ≤ n ∧ n ≤ 32
      · exact ⟨a, b, n, rfl, hp, hn.1, hn.2⟩
      · exfalso; simp [hn] at hs
  · rintro ⟨a, b, n, h, hp, h0, h32⟩
    simp [parseIPv4Address, h, hp, h0, h32]

theorem claim_C4_witness :
    (parseIPv4Address "1.2.3.4/0".data).isSome = true :=
  (claim_C4.1 "1.2.3.4/0".data).mpr
    ⟨"1.2.3.4".data, "0".data, 0, by decide, by decide, le_refl 0, by decide⟩

-- ---------- C5 ----------

/-- Claim C5: every configuration text containing a lowercase-spelled
`publickey = ` key line in a `Peer` block fails validation; the
lowercase variant is never silently accepted as equivalent to the
canonical `PublicKey`. -/
theorem claim_C5 :
    ∀ cfg : String, hasLowercasePublickey cfg = true →
      validateConfiguration cfg = false := by
  intro cfg h
  unfold hasLowercasePublickey at h
  unfold validateConfiguration
  rw [vScan_eq]
  simp [initVFlags, h]

theorem claim_C5_witness :
    hasLowercasePublickey
      "[Interface]\nPrivateKey = k\nAddress = 10.0.0.2/24\n[Peer]\npublickey = x\nEndpoint = e:1" = true ∧
    validateConfiguration
      "[Interface]\nPrivateKey = k\nAddress = 10.0.0.2/24\n[Peer]\npublickey = x\nEndpoint = e:1" = false :=
  ⟨by decide, claim_C5 _ (by decide)⟩

-- ---------- C6 ----------

/-- Claim C6: engine stop is idempotent and releases the tunnel handle at
most once: stopping with no handle held (a negative handle) is a no-op
that passes nothing to `wgTurnOff`; after a stop is initiated the handle
is cleared to `-1`, so a second stop for the same handle never reaches
the engine, and a single stop call passes at most one handle to
`wgTurnOff`. -/
theorem claim_C6 :
    ∀ h : Int,
      (h < 0 → stopTunnel h = (h, [])) ∧
      (0 ≤ h → (stopTunnel h).1 = -1) ∧
      (stopTunnel (stopTunnel h).1).2 = [] ∧
      (stopTunnel h).2.length ≤ 1 := by
  intro h
  unfold stopTunnel
  by_cases hh : 0 ≤ h <;> simp [hh]

theorem claim_C6_witness :
    stopTunnel (-1) = (-1, []) ∧ (stopTunnel 7).1 = -1 ∧
      (stopTunnel (stopTunnel 7).1).2 = [] :=
  ⟨(claim_C6 (-1)).1 (by decide), (claim_C6 7).2.1 (by decide),
   (claim_C6 7).2.2.1⟩

-- ---------- C7 ----------

/-- Claim C7, amended: a `Disconnect` call never reports an exception (no
event is sent on any path); when no provider reference is held and no
profile of this app's extension identity is connected or connecting, no
teardown request is issued (the call is a successful no-op up to a
profile-list read); however `Disconnect` does NOT clear a held provider
reference, so a second `Disconnect` issues the same `stopVPNTunnel`
request again — the original claim that two Disconnects in a row make
no duplicate platform calls is refuted by `claim_C7_counterexample`. -/
theorem claim_C7 :
    ∀ (env : PlatformEnv) (appId : String) (st : ModState) (store : List Manager),
      (Disconnect env appId st store).events = [] ∧
      (st.tunnelProvider = none →
        (∀ m ∈ store, ¬(ownsProfile (extensionId appId) m = true ∧
          (m.status = VPNStatus.connected ∨ m.status = VPNStatus.connecting))) →
        ∀ m, POp.stopTunnel m ∉ (Disconnect env appId st store).ops) ∧
      (∀ m, st.tunnelProvider = some m →
        (Disconnect env appId st store).ops = [POp.stopTunnel m] ∧
        (Disconnect env appId st store).state.tunnelProvider = some m) := by
  intro env appId st store
  refine ⟨?_, ?_, ?_⟩
  · cases hp : st.tunnelProvider <;> by_cases hl : env.loadAllFails <;>
      simp [Disconnect, hp, hl]
  · intro hp hnone m
    have hloop := disconnectLoop_no_targets (extensionId appId) store st hnone
    by_cases hl : env.loadAllFails <;>
      simp [Disconnect, hp, hl, hloop]
  · intro m hp
    simp [Disconnect, hp]

/-- Claim C7, counterexample to the claim as stated: starting from a
state holding a provider reference, `Disconnect` issues a stop request
and keeps the reference; after the platform's `disconnected`
notification is processed (state Disconnected), a second `Disconnect`
issues the identical stop request again — a duplicate platform
teardown call. -/
theorem claim_C7_counterexample :
    (Disconnect ⟨false, false, false, false, VPNStatus.disconnected⟩ "app"
      ⟨some ⟨some "app.WireGuardNetworkExtension", "S", some "c", VPNStatus.connected⟩,
        true, some "S", true⟩
      [⟨some "app.WireGuardNetworkExtension", "S", some "c", VPNStatus.connected⟩]).ops =
      [POp.stopTunnel ⟨some "app.WireGuardNetworkExtension", "S", some "c", VPNStatus.connected⟩] ∧
    (statusChanged
      (Disconnect ⟨false, false, false, false, VPNStatus.disconnected⟩ "app"
        ⟨some ⟨some "app.WireGuardNetworkExtension", "S", some "c", VPNStatus.connected⟩,
          true, some "S", true⟩
        [⟨some "app.WireGuardNetworkExtension", "S", some "c", VPNStatus.connected⟩]).state
      VPNStatus.disconnected).1.isConnected = false ∧
    (Disconnect ⟨false, false, false, false, VPNStatus.disconnected⟩ "app"
      (statusChanged
        (Disconnect ⟨false, false, false, false, VPNStatus.disconnected⟩ "app"
          ⟨some ⟨some "app.WireGuardNetworkExtension", "S", some "c", VPNStatus.connected⟩,
            true, some "S", true⟩
          [⟨some "app.WireGuardNetworkExtension", "S", some "c", VPNStatus.connected⟩]).state
        VPNStatus.disconnected).1
      [⟨some "app.WireGuardNetworkExtension", "S", some "c", VPNStatus.connected⟩]).ops =
      [POp.stopTunnel ⟨some "app.WireGuardNetworkExtension", "S", some "c", VPNStatus.connected⟩] := by
  decide

theorem claim_C7_witness :
    (Disconnect ⟨false, false, false, false, VPNStatus.disconnected⟩ "app"
      initModState []).events = [] ∧
    (∀ m, POp.stopTunnel m ∉
      (Disconnect ⟨false, false, false, false, VPNStatus.disconnected⟩ "app"
        initModState []).ops) ∧
    (Disconnect ⟨false, false, false, false, VPNStatus.disconnected⟩ "app"
      ⟨some ⟨none, "x", none, VPNStatus.connected⟩, true, none, false⟩ []).ops =
      [POp.stopTunnel ⟨none, "x", none, VPNStatus.connected⟩] :=
  ⟨(claim_C7 ⟨false, false, false, false, VPNStatus.disconnected⟩ "app"
      initModState []).1,
   (claim_C7 ⟨false, false, false, false, VPNStatus.disconnected⟩ "app"
      initModState []).2.1 rfl (by simp),
   ((claim_C7 ⟨false, false, false, false, VPNStatus.disconnected⟩ "app"
      ⟨some ⟨none, "x", none, VPNStatus.connected⟩, true, none, false⟩ []).2.2
      ⟨none, "x", none, VPNStatus.connected⟩ rfl).1⟩

-- ---------- C8 ----------

/-- Claim C8: when a persisted profile whose provider identifier matches
this app's extension identity already exists, `Connect` updates that
profile in place (display name and configuration payload) rather than
constructing a new one: the store becomes exactly `updateFirstOwn` of
the old store, the count of own-identity profiles is unchanged, the
found profile's name and payload are updated, and calling `Connect`
twice with the same session name from a store holding exactly one
own-identity profile leaves exactly one own-identity profile. -/
theorem claim_C8 :
    ∀ (env : PlatformEnv) (appId : String) (st : ModState)
      (store : List Manager) (cfg session : String),
      env.loadAllFails = false → env.saveFails = false →
      0 < countOwn (extensionId appId) store →
      countOwn (extensionId appId) (Connect env appId st store cfg session).store =
        countOwn (extensionId appId) store ∧
      (Connect env appId st store cfg session).store =
        updateFirstOwn (extensionId appId) session cfg store ∧
      (∀ m, store.find? (ownsProfile (extensionId appId)) = some m →
        (Connect env appId st store cfg session).store.find?
            (ownsProfile (extensionId appId)) =
          some {m with name := session, payload := some cfg}) ∧
      (countOwn (extensionId appId) store = 1 →
        countOwn (extensionId appId)
          (Connect env appId (Connect env appId st store cfg session).state
            (Connect env appId st store cfg session).store cfg session).store = 1) := by
  intro env appId st store cfg session h1 h2 hpos
  rcases find?_own_of_countOwn_pos (extensionId appId) store hpos with ⟨m, hfind⟩
  have hstore := connect_store_eq env appId st store cfg session m h1 h2 hfind
  have hcount : countOwn (extensionId appId) (Connect env appId st store cfg session).store =
      countOwn (extensionId appId) store := by
    rw [hstore, countOwn_updateFirstOwn]
  refine ⟨hcount, hstore, ?_, ?_⟩
  · intro m2 hm2
    rw [hstore]
    exact find?_updateFirstOwn (extensionId appId) session cfg store m2 hm2
  · intro hone
    have hpos2 : 0 < countOwn (extensionId appId) (Connect env appId st store cfg session).store := by
      rw [hcount, hone]; exact Nat.one_pos
    rcases find?_own_of_countOwn_pos _ _ hpos2 with ⟨m3, hfind3⟩
    have := connect_store_eq env appId (Connect env appId st store cfg session).state
      (Connect env appId st store cfg session).store cfg session m3 h1 h2 hfind3
    rw [this, countOwn_updateFirstOwn, hcount, hone]

theorem claim_C8_witness :
    countOwn (extensionId "app")
      (Connect ⟨false, false, false, false, VPNStatus.connected⟩ "app" initModState
        [⟨some "app.WireGuardNetworkExtension", "Old", some "old", VPNStatus.connected⟩]
        "newcfg" "S").store = 1 :=
  by
    have h := claim_C8 ⟨false, false, false, false, VPNStatus.connected⟩ "app" initModState
      [⟨some "app.WireGuardNetworkExtension", "Old", some "old", VPNStatus.connected⟩]
      "newcfg" "S" rfl rfl (by decide)
    rw [h.1]
    decide

-- ---------- C9 ----------

/-- Claim C9, amended: at controller construction (`OnCreate`,
`src/ios/src/ExpoWireguardModule.swift`), when the FIRST profile of the
platform list is reported `connected` (with no prior `Connect` call),
the controller adopts it and emits exactly one distinguished
`startedBySystem` event and zero `started` events for that check (the
profile's identity is not verified); a system-initiated `connected`
status notification instead produces one NORMAL `started` event — the
original claim that such a notification yields a `StartedBySystem`
event is refuted by `claim_C9_counterexample`. -/
theorem claim_C9 :
    (∀ (ms : List Manager) (m : Manager) (st : ModState),
      ms.head? = some m → m.status = VPNStatus.connected →
      onCreateCheck ms st =
        ({st with tunnelProvider := some m, isConnected := true},
          [Ev.startedBySystem])) ∧
    (∀ st, (vpnStatusObserver st VPNStatus.connected).2 = [Ev.started]) := by
  constructor
  · intro ms m st hm hc
    unfold onCreateCheck
    rw [hm]
    simp [hc]
  · intro st; rfl

/-- Claim C9, counterexample to the claim as stated: a system-initiated
`connected` status notification arriving with no prior `Connect` call
(initial module state) produces exactly one normal `started` event and
zero `startedBySystem` events, contradicting the claimed one
`StartedBySystem` / zero `Started`. -/
theorem claim_C9_counterexample :
    (vpnStatusObserver initModState VPNStatus.connected).2 = [Ev.started] ∧
    (vpnStatusObserver initModState VPNStatus.connected).2.count Ev.startedBySystem = 0 ∧
    (vpnStatusObserver initModState VPNStatus.connected).2.count Ev.started = 1 := by
  decide

theorem claim_C9_witness :
    onCreateCheck [⟨none, "x", none, VPNStatus.connected⟩] initModState =
      ({initModState with
          tunnelProvider := some ⟨none, "x", none, VPNStatus.connected⟩,
          isConnected := true}, [Ev.startedBySystem]) :=
  claim_C9.1 [⟨none, "x", none, VPNStatus.connected⟩]
    ⟨none, "x", none, VPNStatus.connected⟩ initModState rfl rfl

-- ---------- C10 ----------

/-- Claim C10: building tunnel network settings from a configuration text
is total and never fails (`createTunnelNetworkSettings` is a total
function): every `Address` entry that does not parse as a valid CIDR
token is silently skipped — each collected IPv4 pair comes from a
successful parse, as the concrete configuration with the invalid
`10.0.0.1/33` and `bogus` tokens shows — and when no valid IPv4
address is parsed the tunnel remote address defaults to the loopback
address `127.0.0.1`. -/
theorem claim_C10 :
    (∀ cfg : String,
      ((createTunnelNetworkSettings cfg).ipv4 = [] →
        tunnelRemoteAddress cfg = "127.0.0.1".data) ∧
      (∀ p ∈ (createTunnelNetworkSettings cfg).ipv4,
        ∃ tok, parseIPv4Address tok = some p)) ∧
    (createTunnelNetworkSettings
        "[Interface]\nAddress = 10.1.2.3/24, 10.0.0.1/33, bogus").ipv4 =
      [("10.1.2.3".data, "255.255.255.0".data)] := by
  refine ⟨fun cfg => ⟨?_, ?_⟩, by decide⟩
  · intro h
    unfold tunnelRemoteAddress
    rw [h]
    rfl
  · intro p hp
    rcases netFold_ipv4_from_parse (configLines cfg) initNetCollect p hp with h | h
    · simp [initNetCollect] at h
    · exact h

theorem claim_C10_witness :
    tunnelRemoteAddress "" = "127.0.0.1".data ∧
    ∃ tok, parseIPv4Address tok = some ("10.1.2.3".data, "255.255.255.0".data) :=
  ⟨(claim_C10.1 "").1 (by decide),
   (claim_C10.1 "[Interface]\nAddress = 10.1.2.3/24").2
     ("10.1.2.3".data, "255.255.255.0".data) (by decide)⟩


end WG
